import Mathlib

/-!
# Verification of the baltic tree-loading library against its specification

Shallow embedding of `src/baltic/dates.py`, `src/baltic/models.py` and
`src/baltic/io.py`.  Machinery from the missing `tree.py` module (the Tree
Engine) is abstracted behind an interface; where a fact about it is needed it
is modelled from the specification and marked as such.

Conventions of the embedding:
* Python floats are modelled as `Rat` (all computations in scope are exact
  decimal/second arithmetic, no rounding is relevant to the claims).
* Python `None` is `Option.none`; an attribute holding `None` and the
  attribute value itself are both `Option` values.
* Fallible Python code (exceptions: `AssertionError`, `NameError`,
  `AttributeError`, `KeyError`, `ValueError`) returns `Except PyErr`.
* `datetime.strptime`/format strings are modelled for the subset of formats
  built from the directives `%Y`, `%m`, `%d` and literal characters — the
  subset exercised by the library's defaults and by the claims.  A format
  outside this subset yields the distinguished error `PyErr.unmodelled`,
  never a successful parse.
-/

set_option maxHeartbeats 1000000
set_option maxRecDepth 4000

/-- Decidable equality of `Except` results (both components decidable). -/
instance {ε α : Type} [DecidableEq ε] [DecidableEq α] : DecidableEq (Except ε α) := by
  intro a b
  cases a <;> cases b
  case error.error x y =>
    exact if h : x = y then .isTrue (by rw [h]) else .isFalse (fun hc => h (Except.error.inj hc))
  case error.ok x y => exact .isFalse (fun hc => Except.noConfusion hc)
  case ok.error x y => exact .isFalse (fun hc => Except.noConfusion hc)
  case ok.ok x y =>
    exact if h : x = y then .isTrue (by rw [h]) else .isFalse (fun hc => h (Except.ok.inj hc))

/-- Python exception kinds arising in the embedded code. -/
inductive PyErr where
  | assertionError (msg : String)
  | nameError (msg : String)
  | attributeError (msg : String)
  | keyError (msg : String)
  | valueError (msg : String)
  /-- Behaviour outside the modelled subset (never produced on the inputs the
  claims are about). -/
  | unmodelled (msg : String)
  deriving DecidableEq, Repr

/-! ## Calendar arithmetic (shared by `dates.py` helpers)

`datetime` arithmetic in `decimal_date` reduces to day-of-year arithmetic
because only date directives occur in the modelled formats (the parsed
instant has time 00:00). -/

/-- Gregorian leap-year rule, as implemented by Python's `datetime`. -/
def isLeapYear (y : Nat) : Bool :=
  (y % 4 == 0 && y % 100 != 0) || y % 400 == 0

/-- Number of days of month `m` (1-based); `0` for out-of-range months. -/
def daysInMonth (lp : Bool) : Nat → Nat
  | 1 => 31
  | 2 => if lp then 29 else 28
  | 3 => 31
  | 4 => 30
  | 5 => 31
  | 6 => 30
  | 7 => 31
  | 8 => 31
  | 9 => 30
  | 10 => 31
  | 11 => 30
  | 12 => 31
  | _ => 0

/-- Days elapsed in the year before month `m` starts. -/
def daysBefore (lp : Bool) : Nat → Nat
  | 0 => 0
  | n + 1 => daysBefore lp n + daysInMonth lp n

/-- Total number of days in a year. -/
def daysInYear (lp : Bool) : Nat := if lp then 366 else 365

/-- Calendar instant produced by `datetime.strptime` restricted to date
directives; the unparsed fields keep `strptime`'s defaults 1900-01-01. -/
structure PDate where
  year : Nat := 1900
  month : Nat := 1
  day : Nat := 1
  deriving DecidableEq, Repr

/-- 0-based day-of-year index of a date: `(adatetime - boy).days`. -/
def dayOfYear (d : PDate) : Nat :=
  daysBefore (isLeapYear d.year) d.month + (d.day - 1)

/-! ## Format strings and `datetime.strptime` -/

/-- Tokens of a `strftime`/`strptime` format string: the directives `%Y`,
`%m`, `%d` and literal characters. -/
inductive FmtTok where
  | Y
  | M
  | D
  | lit (c : Char)
  deriving DecidableEq, Repr

/-- Tokenize a format string.  Directives other than `%Y`/`%m`/`%d` (and a
trailing bare `%`) are outside the modelled subset and yield `none`. -/
def fmtToks : List Char → Option (List FmtTok)
  | [] => some []
  | '%' :: c :: rest =>
    if c = 'Y' then (fmtToks rest).map (FmtTok.Y :: ·)
    else if c = 'm' then (fmtToks rest).map (FmtTok.M :: ·)
    else if c = 'd' then (fmtToks rest).map (FmtTok.D :: ·)
    else none
  | '%' :: [] => none
  | c :: rest => (fmtToks rest).map (FmtTok.lit c :: ·)

/-- Numeric value of a decimal digit character. -/
def digitVal (c : Char) : Nat := c.toNat - 48

/-- Consume exactly four digits (CPython `_strptime` pattern for `%Y`). -/
def takeDigits4 : List Char → Option (Nat × List Char)
  | a :: b :: c :: d :: rest =>
    if a.isDigit && b.isDigit && c.isDigit && d.isDigit then
      some (digitVal a * 1000 + digitVal b * 100 + digitVal c * 10 + digitVal d, rest)
    else none
  | _ => none

/-- Ordered alternatives for `%m` (CPython pattern `1[0-2]|0[1-9]|[1-9]`):
each candidate is the parsed value paired with the remaining input. -/
def monthCands : List Char → List (Nat × List Char)
  | c0 :: c1 :: rest =>
    (if c0 = '1' && '0' ≤ c1 && c1 ≤ '2' then [(10 + digitVal c1, rest)] else [])
    ++ (if c0 = '0' && '1' ≤ c1 && c1 ≤ '9' then [(digitVal c1, rest)] else [])
    ++ (if '1' ≤ c0 && c0 ≤ '9' then [(digitVal c0, c1 :: rest)] else [])
  | [c0] => if '1' ≤ c0 && c0 ≤ '9' then [(digitVal c0, [])] else []
  | [] => []

/-- Ordered alternatives for `%d` (CPython pattern
`3[01]|[12]\d|0[1-9]|[1-9]`). -/
def dayCands : List Char → List (Nat × List Char)
  | c0 :: c1 :: rest =>
    (if c0 = '3' && '0' ≤ c1 && c1 ≤ '1' then [(30 + digitVal c1, rest)] else [])
    ++ (if ('1' ≤ c0 && c0 ≤ '2') && c1.isDigit then [(10 * digitVal c0 + digitVal c1, rest)] else [])
    ++ (if c0 = '0' && '1' ≤ c1 && c1 ≤ '9' then [(digitVal c1, rest)] else [])
    ++ (if '1' ≤ c0 && c0 ≤ '9' then [(digitVal c0, c1 :: rest)] else [])
  | [c0] => if '1' ≤ c0 && c0 ≤ '9' then [(digitVal c0, [])] else []
  | [] => []

/-- First alternative on which `f` succeeds (regex ordered alternation with
backtracking). -/
def firstSome {α β : Type} : List α → (α → Option β) → Option β
  | [], _ => none
  | a :: as, f =>
    match f a with
    | some b => some b
    | none => firstSome as f

/-- Match a token list against the whole input (CPython `_strptime` builds an
anchored regex and rejects unconverted trailing data). -/
def matchToks : List FmtTok → List Char → Option PDate
  | [], [] => some {}
  | [], _ :: _ => none
  | FmtTok.Y :: ts, cs =>
    match takeDigits4 cs with
    | some (v, rest) => (matchToks ts rest).map (fun d => { d with year := v })
    | none => none
  | FmtTok.M :: ts, cs =>
    firstSome (monthCands cs) (fun p => (matchToks ts p.2).map (fun d => { d with month := p.1 }))
  | FmtTok.D :: ts, cs =>
    firstSome (dayCands cs) (fun p => (matchToks ts p.2).map (fun d => { d with day := p.1 }))
  | FmtTok.lit c :: ts, c0 :: cs => if c0 = c then matchToks ts cs else none
  | FmtTok.lit _ :: _, [] => none

/-- `datetime.strptime(date, fmt)`: tokenize the format, match the date
against it, then apply the `datetime` constructor's range validation
(`MINYEAR ≤ year ≤ MAXYEAR`, `1 ≤ month ≤ 12`, `1 ≤ day ≤ days_in_month`). -/
def strptime (date fmt : String) : Except PyErr PDate :=
  match fmtToks fmt.toList with
  | none => .error (.unmodelled "format directive outside modelled subset")
  | some toks =>
    match matchToks toks date.toList with
    | none => .error (.valueError "time data does not match format")
    | some d =>
      if 1 ≤ d.year ∧ d.year ≤ 9999 ∧ 1 ≤ d.month ∧ d.month ≤ 12 ∧
          1 ≤ d.day ∧ d.day ≤ daysInMonth (isLeapYear d.year) d.month then
        .ok d
      else
        .error (.valueError "date field out of range")

/-! ## `decimal_date` (dates.py lines 13-43) -/

/-- Fractional-year value computed by `decimal_date` from the parsed instant:
`year + (adatetime - boy).total_seconds() / (eoy - boy).total_seconds()`. -/
def dd_of_date (d : PDate) : Rat :=
  (d.year : Rat) +
    ((dayOfYear d * 86400 : Nat) : Rat) / ((daysInYear (isLeapYear d.year) * 86400 : Nat) : Rat)

/-- The parse-then-scale tail of `decimal_date` (dates.py lines 37-43),
shared by the variable and non-variable paths. -/
def dd_parse (date fmt : String) : Except PyErr Rat := do
  let d ← strptime date fmt
  pure (dd_of_date d)

/-- `decimal_date` returns the input string unchanged when `fmt` is empty and
a float otherwise. -/
inductive DDResult where
  | raw (s : String)
  | dec (q : Rat)
  deriving DecidableEq, Repr

/-- `re.search("[^0-9A-Za-z%]", fmt)`: first character of the format that is
not alphanumeric and not `%` (the auto-detected field delimiter). -/
def findDelim (fmt : String) : Option Char :=
  fmt.toList.find? (fun c => !(c.isAlphanum || c = '%'))

/-- Python `s.split(d)` for a single-character separator `d`. -/
def splitOnChar (delim : Char) : List Char → List (List Char)
  | [] => [[]]
  | c :: rest =>
    match splitOnChar delim rest with
    | [] => [[]]
    | g :: gs => if c = delim then [] :: g :: gs else (c :: g) :: gs

/-- Python `d.join(groups)` for a single-character separator `d`. -/
def joinWithChar (delim : Char) : List (List Char) → List Char
  | [] => []
  | [g] => g
  | g :: gs => g ++ delim :: joinWithChar delim gs

/-- Python `xs[:-k]` (drop the last `k` elements). -/
def dropLastN {α : Type} : Nat → List α → List α
  | 0, l => l
  | n + 1, l => dropLastN n l.dropLast

/-- `delim.join(fmt.split(delim)[:-k])` for `k = 1, 2`: drop the last `k`
delimiter-separated fields of the format. -/
def dropLastFields (fmt : String) (delim : Char) (k : Nat) : String :=
  String.mk (joinWithChar delim (dropLastN k (splitOnChar delim fmt.toList)))

/-- `decimal_date(date, fmt, variable)` from dates.py lines 13-43 (`var`
models the `variable` keyword argument).  On the variable path with no
delimiter in the format, Python computes `dateL = 1` and then evaluates
`delimit.join(...)` with `delimit = None`, raising `AttributeError`. -/
def decimal_date (date fmt : String) (var : Bool) : Except PyErr DDResult :=
  if fmt = "" then .ok (.raw date)
  else
    match (if var then
            match findDelim fmt with
            | some delim =>
              let dateL := (splitOnChar delim date.toList).length
              if dateL = 2 then Except.ok (dropLastFields fmt delim 1)
              else if dateL = 1 then Except.ok (dropLastFields fmt delim 2)
              else Except.ok fmt
            | none => Except.error (PyErr.attributeError "NoneType object has no attribute join")
          else Except.ok fmt : Except PyErr String) with
    | .error e => .error e
    | .ok fmtEff => (dd_parse date fmtEff).map DDResult.dec

/-! ## `calendar_date` (dates.py lines 46-56)

`dates.py` imports only `datetime` (the class) and `re`; the body of
`calendar_date` nevertheless evaluates `dt.timedelta(...)`.  Python resolves
the name `dt` against the function's local scope, then the module's global
scope, then builtins; it is bound in none of them, so every call raises
`NameError` before any arithmetic completes. -/

structure PyObj where
  name : Option String := none
  branch_type : Option String := none
  length : Option Rat := none
  width : Option Rat := none
  height : Option Rat := none
  absolute_time : Option Rat := none
  parent : Option Nat := none
  traits : List (String × String) := []
  index : Option Nat := none
  x : Option Rat := none
  y : Option Rat := none
  branchType : Option String := none
  children : Option (List Nat) := none
  child_height : Option Rat := none
  leaves : Option (List String) := none
  subtree : Option Nat := none
  last_height : Option Rat := none
  last_absolute_time : Option Rat := none
  target : Option Nat := none
  deriving DecidableEq, Repr

/-- `BaseTreeObject.__init__` (models.py lines 17-28): every shared attribute
starts as `None` (empty dict for `traits`). -/
def BaseTreeObject_init : PyObj := {}

/-- `Node.__init__` (models.py lines 167-174). -/
def Node_init : PyObj :=
  { BaseTreeObject_init with
    branch_type := some "node"
    length := some 0
    children := some []
    child_height := none
    leaves := some [] }

/-- `Leaf.__init__` (models.py lines 185-187): assigns only `branchType`
(a different attribute name than the base `branch_type`), and never assigns
`length`. -/
def Leaf_init : PyObj :=
  { BaseTreeObject_init with branchType := some "leaf" }

/-- `Clade.__init__` (models.py lines 204-215). -/
def Clade_init (nm : String) : PyObj :=
  { BaseTreeObject_init with
    name := some nm
    branch_type := some "leaf"
    subtree := none
    leaves := none
    length := some 0
    width := some 1
    last_height := none
    last_absolute_time := none }

/-- `Reticulation.__init__` (models.py lines 226-233). -/
def Reticulation_init (nm : String) : PyObj :=
  { BaseTreeObject_init with
    name := some nm
    branch_type := some "leaf"
    length := some 0
    height := some 0
    width := some (1 / 2)
    target := none }

/-! ## `load_json` translation-mapping validation (io.py lines 167-182 and
208-214)

The two `assert` conditions, as functions of the key set of the
`json_translation` dictionary. -/

/-- First `load_json` assert (io.py lines 167-171): `"name"` present and at
least one of `"absolute_time"`, `"length"`, `"height"` present. -/
def load_json_assert1 (ks : List String) : Bool :=
  ks.contains "name" &&
    (ks.contains "absolute_time" || ks.contains "length" || ks.contains "height")

/-- Second `load_json` assert (io.py lines 208-214), transcribed literally:
`(A and (L not in or H not in)) or (not A and (L in or H in))`. -/
def load_json_assert2 (ks : List String) : Bool :=
  (ks.contains "absolute_time" && (!(ks.contains "length") || !(ks.contains "height")))
  || (!(ks.contains "absolute_time") && (ks.contains "length" || ks.contains "height"))

/-- Validity as the claim states it (second definition, following the
claim's words for comparison): `"name"` defined and exactly one of
`"absolute_time"`, `"length"`, `"height"` defined. -/
def claimed_translation_valid (ks : List String) : Bool :=
  ks.contains "name" &&
    ((cond (ks.contains "absolute_time") 1 0) + (cond (ks.contains "length") 1 0)
      + (cond (ks.contains "height") 1 0) == 1)

/-! ## `load_json` branch-length derivation (io.py lines 259-268)

After translation, each object's `length` is recomputed from the active
branch unit (`height` or `absolute_time`): `cur_branch = getattr(k, unit)`,
`par_branch = getattr(k.parent, unit)`.  The root's `parent` is `None`
(modelled from the spec — `make_tree_json` lives in the absent `tree.py`,
and §3 of the specification states the back-reference is "absent for the
root"), and `getattr(None, unit)` raises `AttributeError`. -/

/-- Objects as the derivation loop sees them: `parent` is an index into the
registry (`None` at the root), attribute values are `None` or floats. -/
structure JObj where
  parent : Option Nat := none
  absolute_time : Option Rat := none
  height : Option Rat := none
  length : Option Rat := none
  deriving DecidableEq, Repr

/-- Python truthiness of an attribute value (`None` and `0.0` are falsy). -/
def truthy : Option Rat → Bool
  | none => false
  | some q => q != 0

/-- One iteration of the derivation loop for one object `k`:
`k.length = cur - par if cur and par else 0.0`, after the `getattr` on
`k.parent` — which raises `AttributeError` when `k.parent` is `None`. -/
def derive_length_step (objs : List JObj) (get : JObj → Option Rat) (k : JObj) :
    Except PyErr JObj :=
  let cur := get k
  match k.parent with
  | none => .error (.attributeError "NoneType object has no attribute")
  | some pi =>
    match objs[pi]? with
    | none => .error (.attributeError "invalid parent reference")
    | some p =>
      let par := get p
      .ok { k with length := some (if truthy cur && truthy par then cur.getD 0 - par.getD 0 else 0) }

/-- The whole derivation loop (io.py lines 262-268) over the registry for one
active branch unit. -/
def derive_lengths (objs : List JObj) (get : JObj → Option Rat) : Except PyErr (List JObj) :=
  objs.mapM (derive_length_step objs get)

/-- A root object as `make_tree_json` produces it: no parent, with a
translated `absolute_time`. -/
def rootJObj : JObj := { parent := none, absolute_time := some 2021 }

/-! ## The Tree Engine interface and the loaders (io.py)

`io.py` drives `make_tree`, `make_tree_json`, `traverse_tree`,
`sort_branches`, `get_external`, `rename_tips` and `set_absolute_time` from
the `tree` module, which is not part of the available source. -/

/-- Modelled from the spec: the Tree Engine operations (`tree.py`, absent
from `src/`), abstracted over the tree representation.  Construction may
fail (fatal parse errors, spec section 4.3); the query/update passes are
given general fallible or pure signatures matching their call sites in
`io.py`. -/
structure TreeEngine (τ : Type) where
  make_tree : String → Except PyErr τ
  traverse_tree : τ → Except PyErr τ
  sort_branches : τ → Except PyErr τ
  get_external : τ → List String
  rename_tips : τ → List (String × String) → τ
  set_absolute_time : τ → Rat → τ

/-- `Except` success as a boolean (used to relate outcomes to resource
handling). -/
def isSuccess {ε α : Type} : Except ε α → Bool
  | .ok _ => true
  | .error _ => false

/-! ### Tip-date calibration (io.py lines 42-60 and 130-148)

The loop over `get_external()` collecting `decimal_date` values of regex
matches, the zero-match assert, and `max(tip_dates)`.  The compiled tip
regex is abstracted as a function from a name to the optional captured
group. -/

/-- The collection loop: for each external name, if the tip regex matches,
convert the captured group via `decimal_date` and append; parse errors
propagate.  (`fmt = ""` would make `decimal_date` return the raw string and
`max` would compare strings — outside the modelled subset.) -/
def collect_dates (extract : String → Option String) (fmt : String) (var : Bool) :
    List String → List Rat → Except PyErr (List Rat)
  | [], acc => .ok acc
  | n :: ns, acc =>
    match extract n with
    | none => collect_dates extract fmt var ns acc
    | some s =>
      match decimal_date s fmt var with
      | .error e => .error e
      | .ok (.raw _) => .error (.unmodelled "empty format: dates collected as raw strings")
      | .ok (.dec q) => collect_dates extract fmt var ns (acc ++ [q])

/-- Python `max` over a nonempty list. -/
def pyMax (h : Rat) (t : List Rat) : Rat := t.foldl max h

/-- The calibration value `highest_tip` handed to `set_absolute_time`:
collect the tip dates, assert at least one was found, take the maximum. -/
def calibrate_value (extract : String → Option String) (fmt : String) (var : Bool)
    (names : List String) : Except PyErr Rat :=
  match collect_dates extract fmt var names [] with
  | .error e => .error e
  | .ok [] =>
    .error (.assertionError "Regular expression failed to find tip dates in tip names")
  | .ok (h :: t) => .ok (pyMax h t)

/-- Model of the default tip regex `\|([0-9]+\-[0-9]+\-[0-9]+)` at one
position: a pipe followed by three dash-separated digit groups; returns the
captured group. -/
def tipDateAt : List Char → Option (List Char)
  | '|' :: rest =>
    let d1 := rest.takeWhile Char.isDigit
    if d1.isEmpty then none
    else
      match rest.dropWhile Char.isDigit with
      | '-' :: r2 =>
        let d2 := r2.takeWhile Char.isDigit
        if d2.isEmpty then none
        else
          match r2.dropWhile Char.isDigit with
          | '-' :: r3 =>
            let d3 := r3.takeWhile Char.isDigit
            if d3.isEmpty then none else some (d1 ++ '-' :: d2 ++ '-' :: d3)
          | _ => none
      | _ => none
  | _ => none

/-- `re.search` of the default tip regex over a name: leftmost match wins. -/
def tipDateSearch (s : String) : Option String :=
  (firstSome s.toList.tails tipDateAt).map String.mk

/-! ### Newick loading (io.py lines 11-63) -/

/-- Does a line contain an opening parenthesis (`"(" in l`)? -/
def hasParen (l : String) : Bool := l.toList.contains '('

/-- `l[l.index("("):]` — the substring from the first opening parenthesis. -/
def parenTail (l : String) : String :=
  String.mk (l.toList.dropWhile (fun c => !(c = '(')))

/-- The tree-string selection performed by the `load_newick` scan loop
(io.py lines 29-36): every line containing `(` overwrites the previous
choice, so the loop keeps the substring-from-`(` of the **last** such line. -/
def newick_tree_string (lines : List String) : Option String :=
  lines.foldl (fun acc l => if hasParen l then some (parenTail l) else acc) none

/-- The same scan with the per-line `make_tree` calls (the code parses every
line containing `(` as it is encountered). -/
def newick_scan {τ : Type} (E : TreeEngine τ) : List String → Option τ → Except PyErr (Option τ)
  | [], acc => .ok acc
  | l :: ls, acc =>
    if hasParen l then
      match E.make_tree (parenTail l) with
      | .error e => .error e
      | .ok t => newick_scan E ls (some t)
    else newick_scan E ls acc

/-- `load_newick` (io.py lines 11-63) over an already-opened line sequence
obtained from a path: scan, `assert ll`, traverse, optional sort, optional
calibration, and — only after all of that — `handle.close()`.  The second
component records whether the handle was closed. -/
def load_newick_model {τ : Type} (E : TreeEngine τ) (lines : List String)
    (extract : String → Option String) (fmt : String)
    (variable_date absolute_time sortB : Bool) :
    Except PyErr τ × Bool :=
  match newick_scan E lines none with
  | .error e => (.error e, false)
  | .ok none => (.error (.assertionError "Regular expression failed to find tree string"), false)
  | .ok (some t) =>
    match E.traverse_tree t with
    | .error e => (.error e, false)
    | .ok t1 =>
      match (if sortB then E.sort_branches t1 else .ok t1) with
      | .error e => (.error e, false)
      | .ok t2 =>
        if absolute_time then
          match calibrate_value extract fmt variable_date (E.get_external t2) with
          | .error e => (.error e, false)
          | .ok v => (.ok (E.set_absolute_time t2 v), true)
        else (.ok t2, true)

/-! ### Nexus loading (io.py lines 66-152) -/

/-- Lower-cased character list of a line (`l.lower()`). -/
def lowerStr (s : String) : List Char := s.toList.map Char.toLower

/-- Match a literal pattern at the start of the input, returning the rest. -/
def chopLit : List Char → List Char → Option (List Char)
  | [], cs => some cs
  | _ :: _, [] => none
  | p :: ps, c :: cs => if c = p then chopLit ps cs else none

/-- Substring containment (`pat in s`). -/
def hasSub (pat cs : List Char) : Bool :=
  cs.tails.any (fun t => (chopLit pat t).isSome)

/-- Numeric value of a digit string. -/
def natOfDigits (ds : List Char) : Nat :=
  ds.foldl (fun a c => a * 10 + digitVal c) 0

/-- Match of `dimensions ntax=([0-9]+);` at one position. -/
def dimAt (cs : List Char) : Option Nat :=
  match chopLit "dimensions ntax=".toList cs with
  | none => none
  | some rest =>
    let ds := rest.takeWhile Char.isDigit
    if ds.isEmpty then none
    else
      match rest.dropWhile Char.isDigit with
      | ';' :: _ => some (natOfDigits ds)
      | _ => none

/-- `re.search("dimensions ntax=([0-9]+);", l.lower())`. -/
def dimSearch (cs : List Char) : Option Nat := firstSome cs.tails dimAt

/-- The character class `[A-Za-z\_]` of the tree-definition pattern. -/
def isTreeClass (c : Char) : Bool :=
  ('A' ≤ c && c ≤ 'Z') || ('a' ≤ c && c ≤ 'z') || c = '_'

/-- Match of the default tree-definition pattern `tree [A-Za-z\_]+([0-9]+)`
at one position of the lower-cased line. -/
def treeMatchAt : List Char → Bool
  | 't' :: 'r' :: 'e' :: 'e' :: ' ' :: rest =>
    !(rest.takeWhile isTreeClass).isEmpty &&
      (match rest.dropWhile isTreeClass with
       | c :: _ => c.isDigit
       | [] => false)
  | _ => false

/-- `re.search` of the tree-definition pattern over the lower-cased line. -/
def containsTreeMatch (cs : List Char) : Bool := cs.tails.any treeMatchAt

/-- The character class of the translate-pair pattern's name group:
`[A-Za-z\-\_\/\.'0-9 \|?]`. -/
def clsNameChar (c : Char) : Bool :=
  c.isAlpha || c = '-' || c = '_' || c = '/' || c = '.' || c = Char.ofNat 39 ||
    c.isDigit || c = ' ' || c = '|' || c = '?'

/-- Match of `([0-9]+) ([A-Za-z\-\_\/\.'0-9 \|?]+)` at one position: a
maximal digit run, a space, then a nonempty maximal name-class run (regex
backtracking cannot shorten the digit run, since the following character
would have to be a space). -/
def pairAt (cs : List Char) : Option (String × String) :=
  let ds := cs.takeWhile Char.isDigit
  if ds.isEmpty then none
  else
    match cs.dropWhile Char.isDigit with
    | ' ' :: rest =>
      let nm := rest.takeWhile clsNameChar
      if nm.isEmpty then none else some (String.mk ds, String.mk nm)
    | _ => none

/-- `re.search` of the translate-pair pattern over the raw line. -/
def pairSearch (s : String) : Option (String × String) :=
  firstSome s.toList.tails pairAt

/-- Python `s.strip(c)` for one strip character. -/
def stripCh (c : Char) (cs : List Char) : List Char :=
  ((cs.dropWhile (· = c)).reverse.dropWhile (· = c)).reverse

/-- `.strip('"').strip("'")` applied to the captured tip name. -/
def stripQuotes (s : String) : String :=
  String.mk (stripCh (Char.ofNat 39) (stripCh (Char.ofNat 34) s.toList))

/-- Python dict assignment `d[k] = v`: replace the value of an existing key,
else append the pair. -/
def dictSet (d : List (String × String)) (k v : String) : List (String × String) :=
  if (d.lookup k).isSome then d.map (fun p => if p.1 = k then (k, v) else p)
  else d ++ [(k, v)]

/-- The mutable state of the `load_nexus` scan loop. -/
structure NexusState (τ : Type) where
  tip_flag : Bool := false
  tips : List (String × String) := []
  tip_num : Nat := 0
  ll : Option τ := none
  /-- Lines printed by the `"tip not captured by regex"` diagnostic. -/
  reported : List String := []

/-- One iteration of the `load_nexus` scan loop (io.py lines 88-121), in
source order: the `dimensions` search, the tree-definition search (parsing
the substring from the first `(` — `l.index("(")` raising `ValueError` when
a matching line has no parenthesis), the translate-block processing guarded
by `tip_flag`, then the `translate`/`;` flag updates. -/
def nexus_step {τ : Type} (E : TreeEngine τ) (st : NexusState τ) (l : String) :
    Except PyErr (NexusState τ) :=
  let st1 :=
    match dimSearch (lowerStr l) with
    | some n => { st with tip_num := n }
    | none => st
  match (if containsTreeMatch (lowerStr l) then
          match (if hasParen l then Except.ok (parenTail l)
                 else Except.error (PyErr.valueError "substring not found") : Except PyErr String) with
          | .error e => .error e
          | .ok s => (E.make_tree s).map (fun t => { st1 with ll := some t })
        else .ok st1 : Except PyErr (NexusState τ)) with
  | .error e => .error e
  | .ok st2 =>
    let st3 :=
      if st2.tip_flag then
        match pairSearch l with
        | some kv => { st2 with tips := dictSet st2.tips kv.1 (stripQuotes kv.2) }
        | none =>
          if l.toList.contains ';' then st2
          else { st2 with reported := st2.reported ++ [l] }
      else st2
    let st4 := if hasSub "translate".toList (lowerStr l) then { st3 with tip_flag := true } else st3
    let st5 := if l.toList.contains ';' then { st4 with tip_flag := false } else st4
    .ok st5

/-- The whole `load_nexus` scan loop over the line sequence. -/
def nexus_scan {τ : Type} (E : TreeEngine τ) : List String → NexusState τ → Except PyErr (NexusState τ)
  | [], st => .ok st
  | l :: ls, st =>
    match nexus_step E st l with
    | .error e => .error e
    | .ok st' => nexus_scan E ls st'

/-- `load_nexus` (io.py lines 66-152) over an already-opened line sequence
obtained from a path: scan, `assert ll`, traverse, optional sort, tip
renaming when translations were captured, optional calibration, and — only
after all of that — `handle.close()`.  Returns the tree together with the
captured translation table; the second component records whether the handle
was closed. -/
def load_nexus_model {τ : Type} (E : TreeEngine τ) (lines : List String)
    (extract : String → Option String) (fmt : String)
    (variable_date absolute_time sortB : Bool) :
    Except PyErr (τ × List (String × String)) × Bool :=
  match nexus_scan E lines {} with
  | .error e => (.error e, false)
  | .ok st =>
    match st.ll with
    | none => (.error (.assertionError "Regular expression failed to find tree string"), false)
    | some t =>
      match E.traverse_tree t with
      | .error e => (.error e, false)
      | .ok t1 =>
        match (if sortB then E.sort_branches t1 else .ok t1) with
        | .error e => (.error e, false)
        | .ok t2 =>
          let t3 := if st.tips.isEmpty then t2 else E.rename_tips t2 st.tips
          if absolute_time then
            match calibrate_value extract fmt variable_date (E.get_external t3) with
            | .error e => (.error e, false)
            | .ok v => (.ok (E.set_absolute_time t3 v, st.tips), true)
          else (.ok (t3, st.tips), true)

/-- A concrete engine over `String` trees: `make_tree` returns the tree
string itself (used to observe which string the loaders parse). -/
def stringEngine : TreeEngine String where
  make_tree := fun s => .ok s
  traverse_tree := fun t => .ok t
  sort_branches := fun t => .ok t
  get_external := fun _ => []
  rename_tips := fun t _ => t
  set_absolute_time := fun t _ => t

/-- A trivial engine over `Unit` trees. -/
def unitEngine : TreeEngine Unit where
  make_tree := fun _ => .ok ()
  traverse_tree := fun t => .ok t
  sort_branches := fun t => .ok t
  get_external := fun _ => []
  rename_tips := fun t _ => t
  set_absolute_time := fun t _ => t

/-- A scan state in the middle of a translate block: one pair already
captured, a tree already parsed. -/
def c9ExampleState : NexusState Unit :=
  { tip_flag := true, tips := [("1", "taxonA")], tip_num := 2, ll := some (), reported := [] }

/-! ## Arithmetic facts about the date embedding -/

/-- The days of a month never run past the end of the year. -/
theorem daysBefore_add_month_le :
    ∀ (lp : Bool), ∀ m, m < 13 → daysBefore lp m + daysInMonth lp m ≤ daysInYear lp := by
  decide

/-- A valid day-of-year index is strictly below the number of days in the
year. -/
theorem dayOfYear_lt (d : PDate)
    (hm1 : 1 ≤ d.month) (hm2 : d.month ≤ 12)
    (hd1 : 1 ≤ d.day) (hd2 : d.day ≤ daysInMonth (isLeapYear d.year) d.month) :
    dayOfYear d < daysInYear (isLeapYear d.year) := by
  have h := daysBefore_add_month_le (isLeapYear d.year) d.month (by omega)

  unfold dayOfYear
  omega

/-- Successful `strptime` results satisfy the `datetime` constructor's range
checks. -/
theorem strptime_ok_valid {date fmt : String} {d : PDate}
    (h : strptime date fmt = .ok d) :
    1 ≤ d.month ∧ d.month ≤ 12 ∧ 1 ≤ d.day ∧
      d.day ≤ daysInMonth (isLeapYear d.year) d.month := by
  unfold strptime at h
  split at h
  · exact absurd h (by simp)
  · split at h
    · exact absurd h (by simp)
    · split at h
      · next hc =>
        have hd := Except.ok.inj h
        subst hd
        exact ⟨hc.2.2.1, hc.2.2.2.1, hc.2.2.2.2.1, hc.2.2.2.2.2⟩
      · exact absurd h (by simp)

/-- The fractional-year value of a range-valid date lies in `[year, year+1)`. -/
theorem dd_of_date_bounds (d : PDate)
    (hm1 : 1 ≤ d.month) (hm2 : d.month ≤ 12)
    (hd1 : 1 ≤ d.day) (hd2 : d.day ≤ daysInMonth (isLeapYear d.year) d.month) :
    (d.year : Rat) ≤ dd_of_date d ∧ dd_of_date d < (d.year : Rat) + 1 := by
  have hlt : dayOfYear d < daysInYear (isLeapYear d.year) :=
    dayOfYear_lt d hm1 hm2 hd1 hd2
  have hypos : 0 < daysInYear (isLeapYear d.year) * 86400 := by
    cases h : isLeapYear d.year <;> simp [daysInYear]
  have hbpos : (0 : Rat) < ((daysInYear (isLeapYear d.year) * 86400 : Nat) : Rat) := by
    exact_mod_cast hypos
  have hfrac_nonneg :
      (0 : Rat) ≤ ((dayOfYear d * 86400 : Nat) : Rat) /
        ((daysInYear (isLeapYear d.year) * 86400 : Nat) : Rat) :=
    div_nonneg (Nat.cast_nonneg _) (le_of_lt hbpos)
  have hfrac_lt :
      ((dayOfYear d * 86400 : Nat) : Rat) /
        ((daysInYear (isLeapYear d.year) * 86400 : Nat) : Rat) < 1 := by
    rw [div_lt_one hbpos]
    have hmul : dayOfYear d * 86400 < daysInYear (isLeapYear d.year) * 86400 := by omega
    exact_mod_cast hmul
  constructor
  · unfold dd_of_date
    linarith
  · unfold dd_of_date
    linarith

/-- C8: every successfully parsed decimal date lies in `[year, year+1)` for
the parsed year, and the start-of-year boundary is exact:
`decimal_date("2021-01-01") == 2021.0`. -/
theorem c8_decimal_date_within_year :
    (∀ (date fmt : String) (var : Bool) (q : Rat),
        decimal_date date fmt var = .ok (.dec q) →
        ∃ (d : PDate) (fmtEff : String), strptime date fmtEff = .ok d ∧
          q = dd_of_date d ∧ (d.year : Rat) ≤ q ∧ q < (d.year : Rat) + 1) ∧
    decimal_date "2021-01-01" "%Y-%m-%d" false = .ok (.dec 2021) := by
  constructor
  · intro date fmt var q h
    unfold decimal_date at h
    split at h
    · exact absurd h (by simp)
    · set X := (if var then
            match findDelim fmt with
            | some delim =>
              let dateL := (splitOnChar delim date.toList).length
              if dateL = 2 then Except.ok (dropLastFields fmt delim 1)
              else if dateL = 1 then Except.ok (dropLastFields fmt delim 2)
              else Except.ok fmt
            | none => Except.error (PyErr.attributeError "NoneType object has no attribute join")
          else Except.ok fmt : Except PyErr String) with hX
      clear_value X
      cases X with
      | error e => exact absurd h (by simp)
      | ok fmtEff =>
        simp only [] at h
        cases hp : dd_parse date fmtEff with
        | error e => rw [hp] at h; exact absurd h (by simp [Except.map])
        | ok r =>
          rw [hp] at h
          have hrq : r = q := by
            simp [Except.map] at h
            exact h
          subst hrq
          unfold dd_parse at hp
          cases hs : strptime date fmtEff with
          | error e => rw [hs] at hp; exact absurd hp (by simp [Bind.bind, Except.bind])
          | ok d =>
            rw [hs] at hp
            have hrd : r = dd_of_date d := by
              simp [Bind.bind, Except.bind, pure, Except.pure] at hp
              exact hp.symm
            obtain ⟨hm1, hm2, hd1, hd2⟩ := strptime_ok_valid hs
            obtain ⟨hlo, hhi⟩ := dd_of_date_bounds d hm1 hm2 hd1 hd2
            exact ⟨d, fmtEff, hs, hrd, by rw [hrd]; exact hlo, by rw [hrd]; exact hhi⟩
  · have hs : strptime "2021-01-01" "%Y-%m-%d" = .ok ⟨2021, 1, 1⟩ := by decide
    have hv : dd_of_date ⟨2021, 1, 1⟩ = 2021 := by
      norm_num [dd_of_date, dayOfYear, daysBefore, daysInMonth, isLeapYear, daysInYear]
    simp [decimal_date, dd_parse, hs, hv, Except.map, Bind.bind, Except.bind, pure, Except.pure]

/-- C7: with `variable` set, the number of delimiter-separated fields present
in the date determines how many trailing format fields are dropped before
parsing: two fields drop the last format field, one field drops the last two;
`decimal_date("2020-07", variable=true)` under `%Y-%m-%d` succeeds by
truncating the format to `%Y-%m`. -/
theorem c7_variable_truncation :
    (∀ (date fmt : String) (delim : Char), findDelim fmt = some delim →
      ((splitOnChar delim date.toList).length = 2 →
        decimal_date date fmt true = (dd_parse date (dropLastFields fmt delim 1)).map DDResult.dec) ∧
      ((splitOnChar delim date.toList).length = 1 →
        decimal_date date fmt true = (dd_parse date (dropLastFields fmt delim 2)).map DDResult.dec)) ∧
    decimal_date "2020-07" "%Y-%m-%d" true = .ok (.dec (2020 + 182 / 366)) := by
  constructor
  · intro date fmt delim hd
    have hne : fmt ≠ "" := by
      intro e
      subst e
      simp [findDelim] at hd
    constructor <;> intro hl <;> simp only [String.toList] at hl <;>
      simp [decimal_date, hne, hd, hl]
  · have hs : strptime "2020-07" "%Y-%m" = .ok ⟨2020, 7, 1⟩ := by decide
    have hv : dd_of_date ⟨2020, 7, 1⟩ = 2020 + 182 / 366 := by
      norm_num [dd_of_date, dayOfYear, daysBefore, daysInMonth, isLeapYear, daysInYear]
    have h1 : decimal_date "2020-07" "%Y-%m-%d" true =
        (dd_parse "2020-07" "%Y-%m").map DDResult.dec := rfl
    rw [h1]
    simp [dd_parse, hs, hv, Except.map, Bind.bind, Except.bind, pure, Except.pure]

/-- Witness for C7 at the concrete input `"2020-07"` under `%Y-%m-%d`. -/
theorem c7_variable_truncation_witness :
    findDelim "%Y-%m-%d" = some '-' ∧
    (splitOnChar '-' "2020-07".toList).length = 2 ∧
    decimal_date "2020-07" "%Y-%m-%d" true =
      (dd_parse "2020-07" (dropLastFields "%Y-%m-%d" '-' 1)).map DDResult.dec :=
  ⟨by decide, by decide,
    (c7_variable_truncation.1 "2020-07" "%Y-%m-%d" '-' (by decide)).1 (by decide)⟩

/-- Witness for C8 at the concrete input `"2020-07-02"` (2020 is a leap year;
July 2 is the exact midpoint, 2020.5). -/
theorem c8_decimal_date_within_year_witness :
    decimal_date "2020-07-02" "%Y-%m-%d" false = .ok (.dec (4041 / 2 : Rat)) ∧
    ∃ (d : PDate) (fmtEff : String), strptime "2020-07-02" fmtEff = .ok d ∧
      (4041 / 2 : Rat) = dd_of_date d ∧
      (d.year : Rat) ≤ (4041 / 2 : Rat) ∧ (4041 / 2 : Rat) < (d.year : Rat) + 1 := by
  have hs : strptime "2020-07-02" "%Y-%m-%d" = .ok ⟨2020, 7, 2⟩ := by decide
  have hv : dd_of_date ⟨2020, 7, 2⟩ = 4041 / 2 := by
    norm_num [dd_of_date, dayOfYear, daysBefore, daysInMonth, isLeapYear, daysInYear]
  have h : decimal_date "2020-07-02" "%Y-%m-%d" false = .ok (.dec (4041 / 2 : Rat)) := by
    simp [decimal_date, dd_parse, hs, hv, Except.map, Bind.bind, Except.bind, pure, Except.pure]
  exact ⟨h, c8_decimal_date_within_year.1 "2020-07-02" "%Y-%m-%d" false (4041 / 2) h⟩

/-- C4 counterexample: a freshly constructed `Leaf` does not have
`length == 0.0` — `Leaf.__init__` never assigns `length`, so the shared
accessor still reads the base default `None`. -/
theorem c4_leaf_length_unset_counterexample :
    Leaf_init.length = none ∧ Leaf_init.length ≠ some 0 := by
  constructor
  · rfl
  · intro h
    simp [Leaf_init, BaseTreeObject_init] at h

/-- C4 amended: `Node`, `Clade` and `Reticulation` initialize `length` to
0.0, while `Leaf` (like the bare base object) leaves it unset (`None`). -/
theorem c4_default_lengths :
    Node_init.length = some 0 ∧
    (∀ nm : String, (Clade_init nm).length = some 0 ∧ (Reticulation_init nm).length = some 0) ∧
    Leaf_init.length = none ∧
    BaseTreeObject_init.length = none := by
  refine ⟨rfl, fun nm => ⟨rfl, rfl⟩, rfl, rfl⟩

/-- C1: the translation mapping with keys `name`, `absolute_time` and
`length` defines both an absolute-time-style and a length-style source, which
the claim says must fail with an invalid-configuration error — yet both
`load_json` asserts accept it (the second assert only rejects all three
sources together), contradicting the assert's own message "Cannot use both
absolute time and branch length, include only one". -/
theorem c1_conflicting_translation_accepted :
    load_json_assert1 ["name", "absolute_time", "length"] = true ∧
    load_json_assert2 ["name", "absolute_time", "length"] = true ∧
    claimed_translation_valid ["name", "absolute_time", "length"] = false := by
  decide

/-- C5: the length derivation fails at the root object instead of assigning
0.0 — `getattr(k.parent, "absolute_time")` with `k.parent = None` raises
`AttributeError`, contradicting the code's own comment "(or, if parent
unavailabel it's 0)". -/
theorem c5_root_length_derivation_raises :
    derive_lengths [rootJObj] (fun k => k.absolute_time) =
      .error (.attributeError "NoneType object has no attribute") := by
  rfl

/-! ## Lemmas about calibration -/

/-- If the tip regex matches no name, the collection loop returns its
accumulator unchanged. -/
theorem collect_dates_no_match (extract : String → Option String) (fmt : String) (var : Bool) :
    ∀ (names : List String) (acc : List Rat),
      (∀ n ∈ names, extract n = none) →
      collect_dates extract fmt var names acc = .ok acc := by
  intro names
  induction names with
  | nil => intro acc _; rfl
  | cons n ns ih =>
    intro acc h
    have hn : extract n = none := h n (by simp)
    simp only [collect_dates, hn]
    exact ih acc (fun m hm => h m (by simp [hm]))

/-- The seed of a running maximum never exceeds the result. -/
theorem self_le_pyMax : ∀ (t : List Rat) (a : Rat), a ≤ pyMax a t := by
  intro t
  induction t with
  | nil => intro a; simp [pyMax]
  | cons x t ih =>
    intro a
    show a ≤ pyMax (max a x) t
    exact le_trans (le_max_left a x) (ih (max a x))

/-- `max(list)` returns an element of the list. -/
theorem pyMax_mem : ∀ (t : List Rat) (h : Rat), pyMax h t ∈ h :: t := by
  intro t
  induction t with
  | nil => intro h; simp [pyMax]
  | cons x t ih =>
    intro h
    have hm := ih (max h x)
    show pyMax (max h x) t ∈ h :: x :: t
    rcases List.mem_cons.mp hm with h1 | h2
    · rcases max_choice h x with hc | hc
      · rw [h1, hc]; exact List.mem_cons_self _ _
      · rw [h1, hc]; exact List.mem_cons_of_mem _ (List.mem_cons_self _ _)
    · exact List.mem_cons_of_mem _ (List.mem_cons_of_mem _ h2)

/-- `max(list)` bounds every element of the list. -/
theorem le_pyMax_of_mem : ∀ (t : List Rat) (h d : Rat), d ∈ h :: t → d ≤ pyMax h t := by
  intro t
  induction t with
  | nil =>
    intro h d hd
    simp at hd
    simp [pyMax, hd]
  | cons x t ih =>
    intro h d hd
    show d ≤ pyMax (max h x) t
    rcases List.mem_cons.mp hd with rfl | hd2
    · exact le_trans (le_max_left d x) (self_le_pyMax t _)
    · rcases List.mem_cons.mp hd2 with rfl | hd3
      · exact le_trans (le_max_right h d) (self_le_pyMax t _)
      · exact ih (max h x) d (List.mem_cons_of_mem _ hd3)

/-- C6: the calibration step of `load_newick`/`load_nexus` — applied to the
external objects' names — fails with the zero-matches assertion when the tip
regex matches no name, and otherwise hands `set_absolute_time` a converted
date that is the maximum (most recent) of all converted dates. -/
theorem c6_calibration (extract : String → Option String) (fmt : String) (var : Bool)
    (names : List String) :
    (names.filterMap extract = [] →
      calibrate_value extract fmt var names =
        .error (.assertionError "Regular expression failed to find tip dates in tip names")) ∧
    (∀ v : Rat, calibrate_value extract fmt var names = .ok v →
      ∃ ds : List Rat, collect_dates extract fmt var names [] = .ok ds ∧ ds ≠ [] ∧
        v ∈ ds ∧ ∀ d ∈ ds, d ≤ v) := by
  constructor
  · intro hnone
    have hall : ∀ n ∈ names, extract n = none := by
      intro n hn
      cases he : extract n with
      | none => rfl
      | some s =>
        have hmem : s ∈ names.filterMap extract := List.mem_filterMap.mpr ⟨n, hn, he⟩
        rw [hnone] at hmem
        exact absurd hmem (List.not_mem_nil s)
    unfold calibrate_value
    rw [collect_dates_no_match extract fmt var names [] hall]
  · intro v hv
    unfold calibrate_value at hv
    cases hc : collect_dates extract fmt var names [] with
    | error e => rw [hc] at hv; exact absurd hv (by simp)
    | ok ds =>
      rw [hc] at hv
      cases ds with
      | nil => exact absurd hv (by simp)
      | cons h t =>
        have hveq : pyMax h t = v := by
          simpa using hv
        refine ⟨h :: t, rfl, by simp, ?_, ?_⟩
        · rw [← hveq]; exact pyMax_mem t h
        · intro d hd
          rw [← hveq]
          exact le_pyMax_of_mem t h d hd

/-- Witness for C6: two dated tips under the default tip regex — the most
recent decimal date (2021-06-01) is the calibration value — and a
zero-match failure for an undated tip name. -/
theorem c6_calibration_witness :
    (∃ ds : List Rat,
      collect_dates tipDateSearch "%Y-%m-%d" true ["A|2020-01-01", "B|2021-06-01"] [] = .ok ds ∧
      ds ≠ [] ∧ (2021 + 151 / 365 : Rat) ∈ ds ∧ ∀ d ∈ ds, d ≤ (2021 + 151 / 365 : Rat)) ∧
    calibrate_value tipDateSearch "%Y-%m-%d" true ["tipWithNoDate"] =
      .error (.assertionError "Regular expression failed to find tip dates in tip names") := by
  have hs1 : strptime "2020-01-01" "%Y-%m-%d" = .ok ⟨2020, 1, 1⟩ := by decide
  have hw1 : dd_of_date ⟨2020, 1, 1⟩ = 2020 := by
    norm_num [dd_of_date, dayOfYear, daysBefore, daysInMonth, isLeapYear, daysInYear]
  have h1 : decimal_date "2020-01-01" "%Y-%m-%d" true = .ok (.dec 2020) := by
    have hr : decimal_date "2020-01-01" "%Y-%m-%d" true =
        (dd_parse "2020-01-01" "%Y-%m-%d").map DDResult.dec := rfl
    rw [hr]
    simp [dd_parse, hs1, hw1, Except.map, Bind.bind, Except.bind, pure, Except.pure]
  have hs2 : strptime "2021-06-01" "%Y-%m-%d" = .ok ⟨2021, 6, 1⟩ := by decide
  have hw2 : dd_of_date ⟨2021, 6, 1⟩ = 2021 + 151 / 365 := by
    norm_num [dd_of_date, dayOfYear, daysBefore, daysInMonth, isLeapYear, daysInYear]
  have h2 : decimal_date "2021-06-01" "%Y-%m-%d" true = .ok (.dec (2021 + 151 / 365)) := by
    have hr : decimal_date "2021-06-01" "%Y-%m-%d" true =
        (dd_parse "2021-06-01" "%Y-%m-%d").map DDResult.dec := rfl
    rw [hr]
    simp [dd_parse, hs2, hw2, Except.map, Bind.bind, Except.bind, pure, Except.pure]
  have e1 : tipDateSearch "A|2020-01-01" = some "2020-01-01" := by decide
  have e2 : tipDateSearch "B|2021-06-01" = some "2021-06-01" := by decide
  have hcoll : collect_dates tipDateSearch "%Y-%m-%d" true ["A|2020-01-01", "B|2021-06-01"] [] =
      .ok [2020, 2021 + 151 / 365] := by
    simp [collect_dates, e1, e2, h1, h2]
  have hm : pyMax 2020 [(2021 + 151 / 365 : Rat)] = (2021 + 151 / 365 : Rat) := by
    have : pyMax 2020 [(2021 + 151 / 365 : Rat)] = max 2020 (2021 + 151 / 365 : Rat) := rfl
    rw [this]
    exact max_eq_right (by norm_num)
  have hcal : calibrate_value tipDateSearch "%Y-%m-%d" true ["A|2020-01-01", "B|2021-06-01"] =
      .ok (2021 + 151 / 365 : Rat) := by
    unfold calibrate_value
    rw [hcoll]
    simp [hm]
  constructor
  · exact (c6_calibration tipDateSearch "%Y-%m-%d" true
      ["A|2020-01-01", "B|2021-06-01"]).2 (2021 + 151 / 365) hcal
  · exact (c6_calibration tipDateSearch "%Y-%m-%d" true ["tipWithNoDate"]).1 (by decide)

/-- C2 counterexample: the `load_newick` scan loop has no `break`, so with
two tree lines the tree returned is parsed from the **last** line containing
`(`, not the first — refuting the claim at the concrete input
`["(A:1);", "(B:2);"]` (observed through an engine whose `make_tree` returns
the string it was handed). -/
theorem c2_first_paren_line_counterexample :
    load_newick_model stringEngine ["(A:1);", "(B:2);"] (fun _ => none) "%Y-%m-%d"
        true false true = (.ok "(B:2);", true) ∧
    "(B:2);" ≠ "(A:1);" := by
  constructor
  · rfl
  · decide

/-- C2 amended: the scan inspects every line; each line containing `(` is
handed to `make_tree` in turn, and the string kept is the
substring-from-`(` of the **last** line containing `(`. -/
theorem c2_last_paren_line_parsed :
    ∀ lines : List String,
      newick_tree_string lines = ((lines.filter hasParen).getLast?).map parenTail := by
  intro lines
  induction lines using List.reverseRecOn with
  | nil => rfl
  | append_singleton xs x ih =>
    by_cases hx : hasParen x
    · simp [newick_tree_string, List.foldl_append, hx, List.filter_append]
    · simp only [newick_tree_string, List.foldl_append, List.foldl_cons, List.foldl_nil,
        hx, if_neg, Bool.false_eq_true, not_false_iff, List.filter_append,
        List.filter_cons_of_neg, List.filter_nil, List.append_nil]
      exact ih

/-- C9 counterexample: the original claim fails on the code.  The line
`"tree t1"` sits inside a translate block (after `"translate"`, before any
semicolon — the scan state after the two preceding lines has `tip_flag`
set), does not match the integer-id-plus-name shape and contains no
semicolon, so the claim says it is reported and the load still returns a
tree.  But it matches the tree-definition regex, and the loader then
evaluates `l.index("(")` on a line with no parenthesis (io.py lines
97-99), raising an uncaught `ValueError`: the whole load aborts with the
line never reported. -/
theorem c9_translate_block_counterexample :
    pairSearch "tree t1" = none ∧
    ("tree t1".toList.contains ';') = false ∧
    nexus_scan unitEngine ["translate", "1 taxonA,"] {} =
      .ok { tip_flag := true, tips := [("1", "taxonA")] } ∧
    load_nexus_model unitEngine ["translate", "1 taxonA,", "tree t1"]
        (fun _ => none) "%Y-%m-%d" true false false =
      (.error (.valueError "substring not found"), false) := by
  refine ⟨by decide, by decide, rfl, rfl⟩

/-- C9 amended: a line inside the translate block (tip flag set) that
matches neither the pair pattern, nor the tree-definition pattern, nor the
`dimensions` directive, and contains no semicolon, is only appended to the
diagnostic report: the step succeeds, the captured translation table, the
parsed tree and the tip flag are unchanged, and the scan continues over the
remaining lines.  (The tree-pattern exclusion is forced by the
counterexample: a malformed block line matching it aborts the load through
`l.index("(")`.) -/
theorem c9_translate_block_tolerant :
    ∀ (τ : Type) (E : TreeEngine τ) (st : NexusState τ) (l : String) (post : List String),
      st.tip_flag = true →
      pairSearch l = none →
      l.toList.contains ';' = false →
      dimSearch (lowerStr l) = none →
      containsTreeMatch (lowerStr l) = false →
      nexus_step E st l = .ok { st with reported := st.reported ++ [l] } ∧
      nexus_scan E (l :: post) st =
        nexus_scan E post { st with reported := st.reported ++ [l] } := by
  intro τ E st l post hflag hpair hsemi hdim htree
  have hsemi2 : ¬(';' ∈ l.data) := by simpa using hsemi
  have hstep : nexus_step E st l = .ok { st with reported := st.reported ++ [l] } := by
    cases st with
    | mk tf tips tn ll rep =>
      simp only at hflag
      subst hflag
      simp [nexus_step, hdim, htree, hpair, hsemi2]
  refine ⟨hstep, ?_⟩
  simp only [nexus_scan]
  rw [hstep]

/-- Witness for C9 at the malformed block line `"??badline"`. -/
theorem c9_translate_block_tolerant_witness :
    pairSearch "??badline" = none ∧
    nexus_step unitEngine c9ExampleState "??badline" =
      .ok { c9ExampleState with reported := c9ExampleState.reported ++ ["??badline"] } :=
  ⟨by decide,
    (c9_translate_block_tolerant Unit unitEngine c9ExampleState "??badline" [] rfl
      (by decide) (by decide) (by decide) (by decide)).1⟩

/-- C10: for both loaders, the handle-closing step runs exactly on the
successful return path — every failure exit (no tree string, a construction
error, a calibration error with zero matched tip dates, a date parse error)
leaves the handle open, because `handle.close()` is only reached after all
asserts, with no `try`/`finally` or context manager. -/
theorem c10_handle_closed_iff_success :
    ∀ (τ : Type) (E : TreeEngine τ) (lines : List String) (extract : String → Option String)
      (fmt : String) (vd absT sb : Bool),
      (load_newick_model E lines extract fmt vd absT sb).2 =
        isSuccess (load_newick_model E lines extract fmt vd absT sb).1 ∧
      (load_nexus_model E lines extract fmt vd absT sb).2 =
        isSuccess (load_nexus_model E lines extract fmt vd absT sb).1 := by
  intro τ E lines extract fmt vd absT sb
  constructor
  · unfold load_newick_model
    repeat' split
    all_goals rfl
  · simp only [load_nexus_model]
    repeat' split
    all_goals rfl
